import Mathlib

/-!
Verification of the `ethtool.etherinfo` device-information object
(`python-ethtool/etherinfo_obj.c`) against its specification.

The C file implements attribute access (`_ethtool_etherinfo_getter`),
attribute writes (`_ethtool_etherinfo_setter`), the legacy last-IPv4-address
collapse (`get_last_ipv4_address`), string rendering
(`_ethtool_etherinfo_str`) and the two list accessors
(`_ethtool_etherinfo_get_ipv4_addresses` / `..._get_ipv6_addresses`).

The netlink transport helpers `get_etherinfo_link` and
`get_etherinfo_address` live in `etherinfo.c`, which is not part of the
sources under verification; they are modelled from the spec as an oracle
(`DeviceQueryClient`) answering the n-th query of each kind, together with
per-object query counters that record how many round trips were performed.
-/

/-- Embeds the C struct `PyNetlinkIPaddress`: one configured address record.
Each `PyObject *` string field may be NULL, hence `Option String`.
The C field `local` is a Lean keyword, so it is named `localAddress` here. -/
structure PyNetlinkIPaddress where
  localAddress : Option String
  prefixlen : Int
  ipv4_broadcast : Option String
  scope : Option String
deriving DecidableEq, Repr

/-- A dynamically-typed Python value, as far as the C code inspects one:
`None`, a string, an integer, an address-record object of the exact type
`ethtool_netlink_ip_address_Type`, or a list. -/
inductive PyObj where
  | pynone : PyObj
  | pystr : String → PyObj
  | pyint : Int → PyObj
  | ipaddr : PyNetlinkIPaddress → PyObj
  | pylist : List PyObj → PyObj

/-- Embeds the C struct `PyEtherInfo`: the per-device object state the
getter code reads and writes.  `device` and `hwaddress` are `PyObject *`
string fields that may be NULL.  The field `link_queried` is modelled from
the spec: "even if the fetch yields no address, the object remembers
queried" (the struct's definition, `etherinfo_struct.h`, is not under
verification). -/
structure PyEtherInfo where
  device : Option String
  hwaddress : Option String
  link_queried : Bool
deriving DecidableEq, Repr

/-- The query-type constants `NLQRY_ADDR4` / `NLQRY_ADDR6` passed to
`get_etherinfo_address`. -/
inductive NlQuery where
  | NLQRY_ADDR4 : NlQuery
  | NLQRY_ADDR6 : NlQuery
deriving DecidableEq, Repr

/-- Modelled from the spec: the external `DeviceQueryClient` collaborator
(implemented by `etherinfo.c`, absent from the sources).  It answers the
n-th query of each kind.  `linkAnswers n = none` is a transport failure of
the n-th link query; `some hw` is a successful link query whose link info
carries the optional hardware-address string `hw`.  `addr4Answers n` /
`addr6Answers n` give the `PyObject *` (possibly NULL, hence `Option`)
returned by the n-th IPv4 / IPv6 address query; a fresh value each call,
never cached inside the transport. -/
structure DeviceQueryClient where
  linkAnswers : Nat → Option (Option String)
  addr4Answers : Nat → Option PyObj
  addr6Answers : Nat → Option PyObj

/-- The observable state of one `PyEtherInfo` object together with counters
of how many netlink round trips of each kind it has performed so far. -/
structure QueryState where
  info : PyEtherInfo
  linkCount : Nat
  addr4Count : Nat
  addr6Count : Nat
deriving Repr

/-- Modelled from the spec: `get_etherinfo_link` (in `etherinfo.c`, absent
from the sources).  If the object already remembers a completed link query
it performs no round trip; otherwise it performs one round trip, and only a
successful query commits the cache ("cache only commits on success"; "even
if the fetch yields no address, the object remembers queried"). -/
def get_etherinfo_link (c : DeviceQueryClient) (s : QueryState) : QueryState :=
  if s.info.link_queried then s
  else
    match c.linkAnswers s.linkCount with
    | none => { s with linkCount := s.linkCount + 1 }
    | some hw =>
        { s with
          info := { s.info with hwaddress := hw, link_queried := true },
          linkCount := s.linkCount + 1 }

/-- Modelled from the spec: `get_etherinfo_address` (in `etherinfo.c`,
absent from the sources).  Every call performs one fresh round trip for the
requested family and returns the collaborator's answer unchanged; nothing
is stored on the object. -/
def get_etherinfo_address (c : DeviceQueryClient) (s : QueryState) (q : NlQuery) :
    Option PyObj × QueryState :=
  match q with
  | NlQuery.NLQRY_ADDR4 =>
      (c.addr4Answers s.addr4Count, { s with addr4Count := s.addr4Count + 1 })
  | NlQuery.NLQRY_ADDR6 =>
      (c.addr6Answers s.addr6Count, { s with addr6Count := s.addr6Count + 1 })

/-- Embeds `get_last_ipv4_address` (etherinfo_obj.c:56-77): NULL or a
non-list yields NULL; an empty list yields NULL; otherwise the last element
is returned when its exact type is `ethtool_netlink_ip_address_Type`, else
NULL. -/
def get_last_ipv4_address : Option PyObj → Option PyNetlinkIPaddress
  | some (PyObj.pylist xs) =>
      match xs.getLast? with
      | some (PyObj.ipaddr item) => some item
      | _ => none
  | _ => none

/-- Outcome of `tp_getattro`: a real Python value, a NULL return (the
error signal of the getattr protocol — the `mac_address` branch can return
a NULL `self->hwaddress` without setting an exception), or fall-through to
`PyObject_GenericGetAttr` (method lookup / AttributeError). -/
inductive GetResult where
  | value : PyObj → GetResult
  | nullReturn : GetResult
  | generic : GetResult

/-- Embeds `_ethtool_etherinfo_getter` (etherinfo_obj.c:87-142), the
`tp_getattro` slot: string dispatch on the attribute name; `device` reads
the stored name with no query; `mac_address` triggers `get_etherinfo_link`
then returns `self->hwaddress` (NULL if still unset); the three legacy
IPv4 fields each perform a fresh `NLQRY_ADDR4` query and collapse it with
`get_last_ipv4_address`; anything else falls through to generic lookup. -/
def _ethtool_etherinfo_getter (c : DeviceQueryClient) (s : QueryState) (attr : String) :
    GetResult × QueryState :=
  if attr = "device" then
    match s.info.device with
    | some d => (GetResult.value (PyObj.pystr d), s)
    | none => (GetResult.value PyObj.pynone, s)
  else if attr = "mac_address" then
    let s1 := get_etherinfo_link c s
    match s1.info.hwaddress with
    | some hw => (GetResult.value (PyObj.pystr hw), s1)
    | none => (GetResult.nullReturn, s1)
  else if attr = "ipv4_address" then
    let p := get_etherinfo_address c s NlQuery.NLQRY_ADDR4
    match get_last_ipv4_address p.1 with
    | some a =>
        match a.localAddress with
        | some l => (GetResult.value (PyObj.pystr l), p.2)
        | none => (GetResult.value PyObj.pynone, p.2)
    | none => (GetResult.value PyObj.pynone, p.2)
  else if attr = "ipv4_netmask" then
    let p := get_etherinfo_address c s NlQuery.NLQRY_ADDR4
    match get_last_ipv4_address p.1 with
    | some a => (GetResult.value (PyObj.pyint a.prefixlen), p.2)
    | none => (GetResult.value (PyObj.pyint 0), p.2)
  else if attr = "ipv4_broadcast" then
    let p := get_etherinfo_address c s NlQuery.NLQRY_ADDR4
    match get_last_ipv4_address p.1 with
    | some a =>
        match a.ipv4_broadcast with
        | some b => (GetResult.value (PyObj.pystr b), p.2)
        | none => (GetResult.value PyObj.pynone, p.2)
    | none => (GetResult.value PyObj.pynone, p.2)
  else
    (GetResult.generic, s)

/-- Outcome of `tp_setattro`: the C return value together with the pending
exception message, if one was set with `PyErr_SetString`. -/
structure SetOutcome where
  retval : Int
  raised : Option String
deriving DecidableEq, Repr

/-- Embeds `_ethtool_etherinfo_setter` (etherinfo_obj.c:154-158): sets an
`AttributeError` and returns -1 unconditionally, touching nothing. -/
def _ethtool_etherinfo_setter (s : QueryState) (_attr : String) (_v : PyObj) :
    SetOutcome × QueryState :=
  ({ retval := -1, raised := some "etherinfo member values are read-only." }, s)

/-- Embeds the IPv4 loop body of `_ethtool_etherinfo_str`
(etherinfo_obj.c:193-205): `"\tIPv4 address: "`, the local address
(`PyString_Concat` with a NULL `local` fails, modelled as `none`), `"/"`,
the prefix length, then `"\t  Broadcast: "` and the broadcast address when
present, then a newline. -/
def renderIPv4Line (a : PyNetlinkIPaddress) : Option String :=
  match a.localAddress with
  | none => none
  | some l =>
      some ("\tIPv4 address: " ++ l ++ "/" ++ toString a.prefixlen ++
        (match a.ipv4_broadcast with
         | some b => "\t  Broadcast: " ++ b
         | none => "") ++ "\n")

/-- Embeds the IPv6 loop body of `_ethtool_etherinfo_str`
(etherinfo_obj.c:211-220): `"\tIPv6 address: ["`, the scope, `"] "`, the
local address, `"/"` and the prefix length, then a newline; a NULL scope
or local address makes the string concatenation fail, modelled as
`none`. -/
def renderIPv6Line (a : PyNetlinkIPaddress) : Option String :=
  match a.scope, a.localAddress with
  | some sc, some l =>
      some ("\tIPv6 address: [" ++ sc ++ "] " ++ l ++ "/" ++ toString a.prefixlen ++ "\n")
  | _, _ => none

/-- Embeds the per-element iteration of the rendering loops: each list
element is used as a `PyNetlinkIPaddress` (the C loop casts without a type
check, so a foreign element is undefined behaviour, modelled as failure),
its line appended in list order. -/
def renderElems (render : PyNetlinkIPaddress → Option String) :
    List PyObj → Option String
  | [] => some ""
  | o :: rest =>
      match o with
      | PyObj.ipaddr a =>
          match render a, renderElems render rest with
          | some line, some restStr => some (line ++ restStr)
          | _, _ => none
      | _ => none

/-- Embeds the `if( ipv4addrs ) { for ... }` wrapper of the rendering
loops (etherinfo_obj.c:191-206, 209-221): a NULL result skips the loop,
and `PyList_Size` of a non-list is -1 so the loop body never runs. -/
def renderAddrList (render : PyNetlinkIPaddress → Option String) :
    Option PyObj → Option String
  | some (PyObj.pylist xs) => renderElems render xs
  | _ => some ""

/-- Embeds `_ethtool_etherinfo_str` (etherinfo_obj.c:168-224), the
`tp_str` slot: calls `get_etherinfo_link`, builds `"Device <name>:\n"`
(concatenating a NULL `self->device` fails, modelled as `none`), appends
the MAC line when `self->hwaddress` is set, then one line per record of a
fresh IPv4 query followed by one line per record of a fresh IPv6 query, in
list order. -/
def _ethtool_etherinfo_str (c : DeviceQueryClient) (s : QueryState) :
    Option String × QueryState :=
  let s1 := get_etherinfo_link c s
  match s1.info.device with
  | none => (none, s1)
  | some dev =>
      let header := "Device " ++ dev ++ ":\n"
      let macPart :=
        match s1.info.hwaddress with
        | some hw => "\tMAC address: " ++ hw ++ "\n"
        | none => ""
      let p4 := get_etherinfo_address c s1 NlQuery.NLQRY_ADDR4
      match renderAddrList renderIPv4Line p4.1 with
      | none => (none, p4.2)
      | some v4 =>
          let p6 := get_etherinfo_address c p4.2 NlQuery.NLQRY_ADDR6
          match renderAddrList renderIPv6Line p6.1 with
          | none => (none, p6.2)
          | some v6 => (some (header ++ macPart ++ v4 ++ v6), p6.2)

/-- Embeds `_ethtool_etherinfo_get_ipv4_addresses`
(etherinfo_obj.c:234-241): returns the result of a fresh `NLQRY_ADDR4`
query unchanged (the NULL-self guard is structurally impossible here). -/
def _ethtool_etherinfo_get_ipv4_addresses (c : DeviceQueryClient) (s : QueryState) :
    Option PyObj × QueryState :=
  get_etherinfo_address c s NlQuery.NLQRY_ADDR4

/-- Embeds `_ethtool_etherinfo_get_ipv6_addresses`
(etherinfo_obj.c:252-259): returns the result of a fresh `NLQRY_ADDR6`
query unchanged. -/
def _ethtool_etherinfo_get_ipv6_addresses (c : DeviceQueryClient) (s : QueryState) :
    Option PyObj × QueryState :=
  get_etherinfo_address c s NlQuery.NLQRY_ADDR6

/-- How an optional C string comes back from the getter: the string, or
`Py_None` when absent. -/
def optStrToPy : Option String → PyObj
  | some str => PyObj.pystr str
  | none => PyObj.pynone

/-- The object state after one read of `mac_address`. -/
def readMacState (c : DeviceQueryClient) (s : QueryState) : QueryState :=
  (_ethtool_etherinfo_getter c s "mac_address").2

/-- The object state after `n` successive reads of `mac_address`. -/
def iterReadMac (c : DeviceQueryClient) : Nat → QueryState → QueryState
  | 0, s => s
  | n + 1, s => iterReadMac c n (readMacState c s)

/-- Concatenation of a list of rendered lines, in list order. -/
def joinLines : List String → String
  | [] => ""
  | line :: rest => line ++ joinLines rest

/-- Follows the spec's words (§4.1): the MAC address line of the rendered
text, present exactly when a hardware address is. -/
def specMacLine : Option String → String
  | some m => "\tMAC address: " ++ m ++ "\n"
  | none => ""

/-- Follows the spec's words (§4.1): one rendered line per IPv4 record,
address/prefix plus broadcast when present. -/
def specIPv4Line (a : PyNetlinkIPaddress) : String :=
  "\tIPv4 address: " ++ a.localAddress.getD "" ++ "/" ++ toString a.prefixlen ++
    (match a.ipv4_broadcast with
     | some b => "\t  Broadcast: " ++ b
     | none => "") ++ "\n"

/-- Follows the spec's words (§4.1): one rendered line per IPv6 record,
the scope in brackets then address/prefix. -/
def specIPv6Line (a : PyNetlinkIPaddress) : String :=
  "\tIPv6 address: [" ++ a.scope.getD "" ++ "] " ++ a.localAddress.getD "" ++ "/" ++
    toString a.prefixlen ++ "\n"

/-- Follows the spec's words (§4.1): the whole rendered text — device
header line, MAC line when present, IPv4 lines, IPv6 lines, each family in
query order. -/
def specRender (dev : String) (hw : Option String) (xs4 xs6 : List PyNetlinkIPaddress) :
    String :=
  "Device " ++ dev ++ ":\n" ++ specMacLine hw ++
    joinLines (xs4.map specIPv4Line) ++ joinLines (xs6.map specIPv6Line)

/-- Fixture: a fresh `eth0` object that has performed no query yet. -/
def sFresh : QueryState :=
  { info := { device := some "eth0", hwaddress := none, link_queried := false },
    linkCount := 0, addr4Count := 0, addr6Count := 0 }

/-- Fixture: an IPv4 record without broadcast. -/
def recA : PyNetlinkIPaddress :=
  { localAddress := some "10.0.0.1", prefixlen := 16, ipv4_broadcast := none, scope := none }

/-- Fixture: an IPv4 record with broadcast. -/
def recB : PyNetlinkIPaddress :=
  { localAddress := some "10.0.0.5", prefixlen := 24,
    ipv4_broadcast := some "10.0.0.255", scope := none }

/-- Fixture: a global-scope IPv6 record. -/
def rec6 : PyNetlinkIPaddress :=
  { localAddress := some "fe80::1", prefixlen := 64, ipv4_broadcast := none,
    scope := some "global" }

/-- Fixture: a client whose link queries succeed with a hardware address,
whose IPv4 queries report `[recA, recB]` and whose IPv6 queries report
`[rec6]`. -/
def cW : DeviceQueryClient :=
  { linkAnswers := fun _ => some (some "aa:bb:cc:dd:ee:ff"),
    addr4Answers := fun _ => some (PyObj.pylist [PyObj.ipaddr recA, PyObj.ipaddr recB]),
    addr6Answers := fun _ => some (PyObj.pylist [PyObj.ipaddr rec6]) }

/-- Fixture: a client whose first link query fails (transport error) and
whose later link queries succeed. -/
def cFail : DeviceQueryClient :=
  { linkAnswers := fun n => if n = 0 then none else some (some "aa:bb:cc:dd:ee:ff"),
    addr4Answers := fun _ => some (PyObj.pylist []),
    addr6Answers := fun _ => some (PyObj.pylist []) }

/-- Fixture: a client whose link queries succeed but report no hardware
address, and whose address queries report a non-list value. -/
def cNoHw : DeviceQueryClient :=
  { linkAnswers := fun _ => some none,
    addr4Answers := fun _ => some (PyObj.pystr "oops"),
    addr6Answers := fun _ => some (PyObj.pylist []) }

/-- Fixture: a client for the rendering scenario — hardware address
present, no IPv4 record, one global IPv6 record. -/
def cW6 : DeviceQueryClient :=
  { linkAnswers := fun _ => some (some "aa:bb:cc:dd:ee:ff"),
    addr4Answers := fun _ => some (PyObj.pylist []),
    addr6Answers := fun _ => some (PyObj.pylist [PyObj.ipaddr rec6]) }

/-- The last element of a mapped list is the mapped last element. -/
theorem getLast_map_ipaddr (xs : List PyNetlinkIPaddress) :
    (xs.map PyObj.ipaddr).getLast? = xs.getLast?.map PyObj.ipaddr := by
  induction xs with
  | nil => rfl
  | cons a rest ih =>
    cases rest with
    | nil => rfl
    | cons b rest2 =>
      simpa [List.getLast?_cons_cons] using ih

/-- On a well-formed list of address records, the collapse helper picks
exactly the last record. -/
theorem get_last_ipv4_address_map (xs : List PyNetlinkIPaddress) :
    get_last_ipv4_address (some (PyObj.pylist (xs.map PyObj.ipaddr))) = xs.getLast? := by
  simp only [get_last_ipv4_address, getLast_map_ipaddr]
  cases xs.getLast? <;> rfl

/-- A `mac_address` read changes the object exactly as `get_etherinfo_link`
does: both result branches return the post-link state. -/
theorem readMacState_eq (c : DeviceQueryClient) (s : QueryState) :
    readMacState c s = get_etherinfo_link c s := by
  simp only [readMacState, _ethtool_etherinfo_getter, String.reduceEq, reduceIte]
  cases h : (get_etherinfo_link c s).info.hwaddress <;> simp [h]

/-- Once the object remembers a completed link query, `get_etherinfo_link`
is the identity. -/
theorem get_etherinfo_link_of_queried (c : DeviceQueryClient) (s : QueryState)
    (h : s.info.link_queried = true) : get_etherinfo_link c s = s := by
  simp [get_etherinfo_link, h]

/-- Before any completed link query, `get_etherinfo_link` performs exactly
one round trip, whether it succeeds or fails. -/
theorem link_count_of_not_queried (c : DeviceQueryClient) (s : QueryState)
    (h : s.info.link_queried = false) :
    (get_etherinfo_link c s).linkCount = s.linkCount + 1 := by
  simp only [get_etherinfo_link, h, Bool.false_eq_true, if_false]
  cases c.linkAnswers s.linkCount <;> rfl

/-- Repeated `mac_address` reads leave a queried object untouched. -/
theorem iterReadMac_fixpoint (c : DeviceQueryClient) (n : Nat) (s : QueryState)
    (h : s.info.link_queried = true) : iterReadMac c n s = s := by
  induction n with
  | zero => rfl
  | succ m ih =>
      show iterReadMac c m (readMacState c s) = s
      rw [readMacState_eq, get_etherinfo_link_of_queried c s h, ih]

/-- A link query never touches the stored device name. -/
theorem link_preserves_device (c : DeviceQueryClient) (s : QueryState) :
    (get_etherinfo_link c s).info.device = s.info.device := by
  unfold get_etherinfo_link
  split
  · rfl
  · split <;> rfl

/-- A link query performs no IPv4 address query. -/
theorem link_preserves_addr4 (c : DeviceQueryClient) (s : QueryState) :
    (get_etherinfo_link c s).addr4Count = s.addr4Count := by
  unfold get_etherinfo_link
  split
  · rfl
  · split <;> rfl

/-- A link query performs no IPv6 address query. -/
theorem link_preserves_addr6 (c : DeviceQueryClient) (s : QueryState) :
    (get_etherinfo_link c s).addr6Count = s.addr6Count := by
  unfold get_etherinfo_link
  split
  · rfl
  · split <;> rfl

/-- On a record with a local address, the code's IPv4 rendering line
agrees with the line the spec describes. -/
theorem renderIPv4Line_spec (a : PyNetlinkIPaddress) (h : a.localAddress.isSome = true) :
    renderIPv4Line a = some (specIPv4Line a) := by
  cases hl : a.localAddress with
  | none => rw [hl] at h; cases h
  | some l => simp [renderIPv4Line, specIPv4Line, hl]

/-- On a record with a scope and a local address, the code's IPv6
rendering line agrees with the line the spec describes. -/
theorem renderIPv6Line_spec (a : PyNetlinkIPaddress) (hs : a.scope.isSome = true)
    (hl : a.localAddress.isSome = true) :
    renderIPv6Line a = some (specIPv6Line a) := by
  cases h1 : a.scope with
  | none => rw [h1] at hs; cases hs
  | some sc =>
      cases h2 : a.localAddress with
      | none => rw [h2] at hl; cases hl
      | some l => simp [renderIPv6Line, specIPv6Line, h1, h2]

/-- When every record renders to a line, the loop renders the whole list
to the concatenation of those lines, in list order. -/
theorem renderElems_map (render : PyNetlinkIPaddress → Option String)
    (f : PyNetlinkIPaddress → String) (xs : List PyNetlinkIPaddress)
    (h : ∀ a ∈ xs, render a = some (f a)) :
    renderElems render (xs.map PyObj.ipaddr) = some (joinLines (xs.map f)) := by
  induction xs with
  | nil => rfl
  | cons a rest ih =>
      simp only [List.map_cons, renderElems, h a (List.mem_cons_self a rest),
        ih (fun b hb => h b (List.mem_cons_of_mem a hb)), joinLines]

/-- A non-list value, or a list whose last element is not an address
record, collapses to NULL. -/
theorem get_last_none_of_malformed (obj : PyObj)
    (hmal : (∀ xs : List PyObj, obj ≠ PyObj.pylist xs) ∨
      (∃ xs y, obj = PyObj.pylist xs ∧ xs.getLast? = some y ∧
        ∀ a : PyNetlinkIPaddress, y ≠ PyObj.ipaddr a)) :
    get_last_ipv4_address (some obj) = none := by
  rcases hmal with h | ⟨xs, y, hobj, hlast, hne⟩
  · cases obj with
    | pylist xs => exact absurd rfl (h xs)
    | pynone => rfl
    | pystr t => rfl
    | pyint n => rfl
    | ipaddr a => rfl
  · subst hobj
    simp only [get_last_ipv4_address, hlast]
    cases y with
    | ipaddr a => exact absurd rfl (hne a)
    | pynone => rfl
    | pystr t => rfl
    | pyint n => rfl
    | pylist zs => rfl

/-- Claim C1: for an ordered IPv4 address list returned by a fresh IPv4
query, `ipv4_address` reads the last record's local address (none when
the list is empty or the last record has no local address),
`ipv4_netmask` reads its prefix length (0 when the list is empty), and
`ipv4_broadcast` reads its broadcast address (none when the list is empty
or the last record has none). -/
theorem ipv4_legacy_fields_follow_last_address (c : DeviceQueryClient) (s : QueryState)
    (xs : List PyNetlinkIPaddress)
    (hq : c.addr4Answers s.addr4Count = some (PyObj.pylist (xs.map PyObj.ipaddr))) :
    (_ethtool_etherinfo_getter c s "ipv4_address").1 =
      GetResult.value (optStrToPy (xs.getLast?.bind PyNetlinkIPaddress.localAddress)) ∧
    (_ethtool_etherinfo_getter c s "ipv4_netmask").1 =
      GetResult.value (PyObj.pyint ((xs.getLast?.map PyNetlinkIPaddress.prefixlen).getD 0)) ∧
    (_ethtool_etherinfo_getter c s "ipv4_broadcast").1 =
      GetResult.value (optStrToPy (xs.getLast?.bind PyNetlinkIPaddress.ipv4_broadcast)) := by
  simp only [_ethtool_etherinfo_getter, get_etherinfo_address, hq,
    get_last_ipv4_address_map, String.reduceEq, reduceIte]
  cases h : xs.getLast? with
  | none => simp [optStrToPy]
  | some a =>
      refine ⟨?_, ?_, ?_⟩
      · cases ha : a.localAddress <;> simp [optStrToPy, ha]
      · simp
      · cases hb : a.ipv4_broadcast <;> simp [optStrToPy, hb]

/-- Witness for claim C1: with the IPv4 list `[recA, recB]`, the three
legacy reads give recB's local address `10.0.0.5`, prefix length 24 and
broadcast `10.0.0.255`. -/
theorem ipv4_legacy_fields_follow_last_address_witness :
    cW.addr4Answers sFresh.addr4Count =
      some (PyObj.pylist ([recA, recB].map PyObj.ipaddr)) ∧
    ((_ethtool_etherinfo_getter cW sFresh "ipv4_address").1 =
        GetResult.value (PyObj.pystr "10.0.0.5") ∧
      (_ethtool_etherinfo_getter cW sFresh "ipv4_netmask").1 =
        GetResult.value (PyObj.pyint 24) ∧
      (_ethtool_etherinfo_getter cW sFresh "ipv4_broadcast").1 =
        GetResult.value (PyObj.pystr "10.0.0.255")) :=
  ⟨rfl, ipv4_legacy_fields_follow_last_address cW sFresh [recA, recB] rfl⟩

/-- Claim C2: starting from an object that has not completed a link
query, a read of `mac_address` whose link query succeeds commits the
cache, and any number of further reads performs no additional link query
and never invalidates the cached hardware address; a failed link query
commits nothing, and the next read performs a fresh link query. -/
theorem mac_address_cached_once (c : DeviceQueryClient) (s : QueryState)
    (hq : s.info.link_queried = false) :
    (∀ hw, c.linkAnswers s.linkCount = some hw →
        ∀ n, (iterReadMac c (n + 1) s).linkCount = s.linkCount + 1 ∧
          (iterReadMac c (n + 1) s).info.hwaddress = hw ∧
          (iterReadMac c (n + 1) s).info.link_queried = true) ∧
    (c.linkAnswers s.linkCount = none →
        (readMacState c s).info = s.info ∧
        (readMacState c s).linkCount = s.linkCount + 1 ∧
        (readMacState c (readMacState c s)).linkCount = s.linkCount + 2) := by
  constructor
  · intro hw hans n
    have hstep : readMacState c s =
        { s with
            info := { s.info with hwaddress := hw, link_queried := true },
            linkCount := s.linkCount + 1 } := by
      rw [readMacState_eq]
      simp [get_etherinfo_link, hq, hans]
    have : iterReadMac c (n + 1) s = iterReadMac c n (readMacState c s) := rfl
    rw [this, hstep, iterReadMac_fixpoint c n _ rfl]
    exact ⟨rfl, rfl, rfl⟩
  · intro hans
    have hstep : readMacState c s = { s with linkCount := s.linkCount + 1 } := by
      rw [readMacState_eq]
      simp [get_etherinfo_link, hq, hans]
    refine ⟨by rw [hstep], by rw [hstep], ?_⟩
    rw [hstep, readMacState_eq,
      link_count_of_not_queried c { s with linkCount := s.linkCount + 1 } hq]

/-- Witness for claim C2: three reads against a succeeding client perform
exactly one link query and keep the cached address; against a client whose
first query fails, the read commits nothing and the next read queries
again. -/
theorem mac_address_cached_once_witness :
    sFresh.info.link_queried = false ∧
    cW.linkAnswers sFresh.linkCount = some (some "aa:bb:cc:dd:ee:ff") ∧
    (iterReadMac cW 3 sFresh).linkCount = 1 ∧
    (iterReadMac cW 3 sFresh).info.hwaddress = some "aa:bb:cc:dd:ee:ff" ∧
    cFail.linkAnswers sFresh.linkCount = none ∧
    (readMacState cFail sFresh).info = sFresh.info ∧
    (readMacState cFail (readMacState cFail sFresh)).linkCount = 2 := by
  refine ⟨rfl, rfl, ?_, ?_, rfl, ?_, ?_⟩
  · exact ((mac_address_cached_once cW sFresh rfl).1 (some "aa:bb:cc:dd:ee:ff") rfl 2).1
  · exact ((mac_address_cached_once cW sFresh rfl).1 (some "aa:bb:cc:dd:ee:ff") rfl 2).2.1
  · exact ((mac_address_cached_once cFail sFresh rfl).2 rfl).1
  · exact ((mac_address_cached_once cFail sFresh rfl).2 rfl).2.2

/-- Claim C3: the spec requires a `mac_address` read that finds no
hardware address after the link query to return an explicit None value,
never an error; the code instead returns the NULL `self->hwaddress` — the
error signal of the `tp_getattro` protocol — without setting an
exception.  This theorem evaluates the code at such an input. -/
theorem mac_address_null_return_on_absent_hwaddr :
    (_ethtool_etherinfo_getter cNoHw sFresh "mac_address").1 = GetResult.nullReturn := rfl

/-- Claim C4: every attribute write, for every attribute name and value,
fails with the read-only AttributeError and leaves the whole object state
(device name, cached hardware address, query counters) unchanged. -/
theorem setter_rejects_all_writes (s : QueryState) (attr : String) (v : PyObj) :
    _ethtool_etherinfo_setter s attr v =
      ({ retval := -1, raised := some "etherinfo member values are read-only." }, s) := rfl

/-- Claim C5: each read of the three legacy IPv4 fields performs exactly
one fresh IPv4 address query, and each list accessor performs exactly one
fresh query of its family; no read stores any address list or collapsed
record on the object (the object state is unchanged except the query
counter). -/
theorem address_reads_always_fresh (c : DeviceQueryClient) (s : QueryState) :
    (_ethtool_etherinfo_getter c s "ipv4_address").2 =
      { s with addr4Count := s.addr4Count + 1 } ∧
    (_ethtool_etherinfo_getter c s "ipv4_netmask").2 =
      { s with addr4Count := s.addr4Count + 1 } ∧
    (_ethtool_etherinfo_getter c s "ipv4_broadcast").2 =
      { s with addr4Count := s.addr4Count + 1 } ∧
    (_ethtool_etherinfo_get_ipv4_addresses c s).2 =
      { s with addr4Count := s.addr4Count + 1 } ∧
    (_ethtool_etherinfo_get_ipv6_addresses c s).2 =
      { s with addr6Count := s.addr6Count + 1 } := by
  refine ⟨?_, ?_, ?_, rfl, rfl⟩ <;>
    · simp only [_ethtool_etherinfo_getter, get_etherinfo_address, String.reduceEq, reduceIte]
      split <;> first | rfl | (split <;> rfl)

/-- Claim C6: `get_ipv4_addresses` and `get_ipv6_addresses` return the
list produced by the current query exactly as the query client reported
it — unmodified, uncollapsed, in the same order. -/
theorem get_addresses_passthrough (c : DeviceQueryClient) (s : QueryState)
    (l4 l6 : List PyObj)
    (h4 : c.addr4Answers s.addr4Count = some (PyObj.pylist l4))
    (h6 : c.addr6Answers s.addr6Count = some (PyObj.pylist l6)) :
    (_ethtool_etherinfo_get_ipv4_addresses c s).1 = some (PyObj.pylist l4) ∧
    (_ethtool_etherinfo_get_ipv6_addresses c s).1 = some (PyObj.pylist l6) := by
  exact ⟨h4, h6⟩

/-- Witness for claim C6: the accessors hand back the fixture lists
untouched. -/
theorem get_addresses_passthrough_witness :
    cW.addr4Answers sFresh.addr4Count =
      some (PyObj.pylist [PyObj.ipaddr recA, PyObj.ipaddr recB]) ∧
    cW.addr6Answers sFresh.addr6Count = some (PyObj.pylist [PyObj.ipaddr rec6]) ∧
    ((_ethtool_etherinfo_get_ipv4_addresses cW sFresh).1 =
        some (PyObj.pylist [PyObj.ipaddr recA, PyObj.ipaddr recB]) ∧
      (_ethtool_etherinfo_get_ipv6_addresses cW sFresh).1 =
        some (PyObj.pylist [PyObj.ipaddr rec6])) :=
  ⟨rfl, rfl,
    get_addresses_passthrough cW sFresh [PyObj.ipaddr recA, PyObj.ipaddr recB]
      [PyObj.ipaddr rec6] rfl rfl⟩

/-- Claim C7: the text rendering first triggers a link query, then
composes the device header line, the MAC address line when a hardware
address is present, one line per IPv4 record (address/prefix plus
broadcast when present) and one line per IPv6 record (scope in brackets,
then address/prefix), each family in the order the query reported. -/
theorem str_renders_in_query_order (c : DeviceQueryClient) (s : QueryState)
    (dev : String) (hw : Option String) (xs4 xs6 : List PyNetlinkIPaddress)
    (hdev : s.info.device = some dev)
    (hhw : (get_etherinfo_link c s).info.hwaddress = hw)
    (h4 : c.addr4Answers s.addr4Count = some (PyObj.pylist (xs4.map PyObj.ipaddr)))
    (h6 : c.addr6Answers s.addr6Count = some (PyObj.pylist (xs6.map PyObj.ipaddr)))
    (w4 : ∀ a ∈ xs4, a.localAddress.isSome = true)
    (w6 : ∀ a ∈ xs6, a.scope.isSome = true ∧ a.localAddress.isSome = true) :
    (_ethtool_etherinfo_str c s).1 = some (specRender dev hw xs4 xs6) := by
  have hdev1 : (get_etherinfo_link c s).info.device = some dev := by
    rw [link_preserves_device]; exact hdev
  have h4a : c.addr4Answers (get_etherinfo_link c s).addr4Count =
      some (PyObj.pylist (xs4.map PyObj.ipaddr)) := by
    rw [link_preserves_addr4]; exact h4
  have h6a : c.addr6Answers (get_etherinfo_link c s).addr6Count =
      some (PyObj.pylist (xs6.map PyObj.ipaddr)) := by
    rw [link_preserves_addr6]; exact h6
  have hr4 : renderElems renderIPv4Line (xs4.map PyObj.ipaddr) =
      some (joinLines (xs4.map specIPv4Line)) :=
    renderElems_map renderIPv4Line specIPv4Line xs4
      (fun a ha => renderIPv4Line_spec a (w4 a ha))
  have hr6 : renderElems renderIPv6Line (xs6.map PyObj.ipaddr) =
      some (joinLines (xs6.map specIPv6Line)) :=
    renderElems_map renderIPv6Line specIPv6Line xs6
      (fun a ha => renderIPv6Line_spec a (w6 a ha).1 (w6 a ha).2)
  cases hw with
  | some m =>
      simp only [_ethtool_etherinfo_str, get_etherinfo_address, hdev1, hhw, h4a, h6a,
        renderAddrList, hr4, hr6, specRender, specMacLine]
  | none =>
      simp only [_ethtool_etherinfo_str, get_etherinfo_address, hdev1, hhw, h4a, h6a,
        renderAddrList, hr4, hr6, specRender, specMacLine]

/-- Witness for claim C7, the spec's rendering scenario: device `eth0`
with MAC `aa:bb:cc:dd:ee:ff` and one global IPv6 record renders the
header, MAC and IPv6 lines in that order. -/
theorem str_renders_in_query_order_witness :
    sFresh.info.device = some "eth0" ∧
    (get_etherinfo_link cW6 sFresh).info.hwaddress = some "aa:bb:cc:dd:ee:ff" ∧
    (_ethtool_etherinfo_str cW6 sFresh).1 =
      some "Device eth0:\n\tMAC address: aa:bb:cc:dd:ee:ff\n\tIPv6 address: [global] fe80::1/64\n" :=
  ⟨rfl, rfl,
    str_renders_in_query_order cW6 sFresh "eth0" (some "aa:bb:cc:dd:ee:ff") [] [rec6]
      rfl rfl rfl rfl (by simp) (by simp [rec6])⟩

/-- Claim C8: rendering mutates no cached state of the object beyond the
link-info population of its initial link query; in particular the device
name is unchanged and no address list is stored. -/
theorem str_mutates_only_link_cache (c : DeviceQueryClient) (s : QueryState) :
    (_ethtool_etherinfo_str c s).2.info = (get_etherinfo_link c s).info ∧
    (_ethtool_etherinfo_str c s).2.info.device = s.info.device := by
  have hmain : (_ethtool_etherinfo_str c s).2.info = (get_etherinfo_link c s).info := by
    simp only [_ethtool_etherinfo_str, get_etherinfo_address]
    split
    · rfl
    · split
      · rfl
      · split <;> rfl
  exact ⟨hmain, by rw [hmain, link_preserves_device]⟩

/-- Claim C9: reading `device` performs no query, never fails, and
returns exactly the name the object was constructed with; the object
state is untouched. -/
theorem device_read_is_pure (c : DeviceQueryClient) (s : QueryState) (name : String)
    (h : s.info.device = some name) :
    _ethtool_etherinfo_getter c s "device" = (GetResult.value (PyObj.pystr name), s) := by
  simp [_ethtool_etherinfo_getter, h]

/-- Witness for claim C9: reading `device` on the fresh `eth0` object
returns `eth0` and changes nothing. -/
theorem device_read_is_pure_witness :
    sFresh.info.device = some "eth0" ∧
    _ethtool_etherinfo_getter cW sFresh "device" =
      (GetResult.value (PyObj.pystr "eth0"), sFresh) :=
  ⟨rfl, device_read_is_pure cW sFresh "eth0" rfl⟩

/-- Claim C10: when the fresh IPv4 query produces a value that is not a
list, or a list whose last element is not an address record of the exact
expected type, all three legacy fields resolve to their absent defaults
(None, 0, None) instead of using that element or failing. -/
theorem ipv4_legacy_defaults_on_malformed (c : DeviceQueryClient) (s : QueryState)
    (obj : PyObj) (hq : c.addr4Answers s.addr4Count = some obj)
    (hmal : (∀ xs : List PyObj, obj ≠ PyObj.pylist xs) ∨
      (∃ xs y, obj = PyObj.pylist xs ∧ xs.getLast? = some y ∧
        ∀ a : PyNetlinkIPaddress, y ≠ PyObj.ipaddr a)) :
    (_ethtool_etherinfo_getter c s "ipv4_address").1 = GetResult.value PyObj.pynone ∧
    (_ethtool_etherinfo_getter c s "ipv4_netmask").1 = GetResult.value (PyObj.pyint 0) ∧
    (_ethtool_etherinfo_getter c s "ipv4_broadcast").1 = GetResult.value PyObj.pynone := by
  simp [_ethtool_etherinfo_getter, get_etherinfo_address, hq,
    get_last_none_of_malformed obj hmal]

/-- Witness for claim C10: an IPv4 query reporting the plain string
`oops` makes the three legacy reads give None, 0 and None. -/
theorem ipv4_legacy_defaults_on_malformed_witness :
    cNoHw.addr4Answers sFresh.addr4Count = some (PyObj.pystr "oops") ∧
    ((_ethtool_etherinfo_getter cNoHw sFresh "ipv4_address").1 =
        GetResult.value PyObj.pynone ∧
      (_ethtool_etherinfo_getter cNoHw sFresh "ipv4_netmask").1 =
        GetResult.value (PyObj.pyint 0) ∧
      (_ethtool_etherinfo_getter cNoHw sFresh "ipv4_broadcast").1 =
        GetResult.value PyObj.pynone) :=
  ⟨rfl, ipv4_legacy_defaults_on_malformed cNoHw sFresh (PyObj.pystr "oops") rfl
    (Or.inl (fun _ h => PyObj.noConfusion h))⟩
